import Mathlib

/-!
Verification of the marketplace-ledger module `src/backend/trading_lambda.py`.

The Python module stores all listings as one JSON document in an object
store and implements create/buy/cancel with optimistic locking: each
operation reads the document together with its ETag, recomputes a new
document, and writes it back conditionally on the ETag, retrying a bounded
number of times on `PreconditionFailed`.

We embed the module shallowly:
* `Listing`, `Trade`, `Body`, `Response` mirror the dictionaries the code
  manipulates (fields that the code adds on a state transition are
  `Option`-valued and start as `none`).
* The store interactions of one operation call are abstracted by an
  environment (`ListEnv`, `TradeEnv`) giving, for each read occurrence,
  the document and ETag observed, and for each conditional write, its
  outcome (`ok` / `precondFailed` / `otherError`).  The operations also
  return the log of write requests they issued, so frame properties and
  the conditional/unconditional character of each write can be stated.
* For the at-most-one-winner property, a small-step concurrent model:
  a store with a version counter, and per-buyer processes that alternate
  atomic reads and atomic CAS writes exactly as the retry loop does.
-/

/-- A listing record, as the dictionaries stored in `trading/listings.json`.
Fields added by a state transition (`buyer_id`, `buyer_name`, `sold_at`,
`removed_at`) are `Option`-valued; `create_listing` writes them as `none`. -/
structure Listing where
  listing_id : String
  seller_id : String
  seller_name : String
  item_type : String
  item_name : String
  quantity : Int
  asking_price : Int
  description : String
  status : String
  created_at : String
  buyer_id : Option String := none
  buyer_name : Option String := none
  sold_at : Option String := none
  removed_at : Option String := none
deriving DecidableEq, Repr

/-- A completed-trade record, as appended to `trading/completed_trades.json`. -/
structure Trade where
  trade_id : String
  listing_id : String
  seller_id : String
  seller_name : String
  buyer_id : String
  buyer_name : String
  item_type : String
  item_name : String
  quantity : Int
  final_price : Int
  completed_at : String
deriving DecidableEq, Repr

/-- The JSON bodies the lambda returns (`create_response`'s second argument),
one constructor per distinct dictionary shape in the source. -/
inductive Body where
  /-- `{"error": msg}` -/
  | err (error : String)
  /-- `{"error": "Price changed", "current_price": c, "expected_price": e}` -/
  | priceChanged (error : String) (current_price expected_price : Int)
  /-- the capacity-violation body of `create_listing`, with its structured
  fields `existing_quantity`, `requested_quantity`, `max_allowed` -/
  | capacity (error : String) (existing_quantity requested_quantity max_allowed : Int)
  /-- `{"success": true, "listing": listing}` -/
  | createSuccess (listing : Listing)
  /-- `{"success": true, "trade": trade, "item": {...}}` -/
  | buySuccess (trade : Trade) (item_type item_name : String) (quantity price_paid : Int)
  /-- `{"success": true, "listing_id": id, "message": msg, "removed_listing": {...}}` -/
  | deleteSuccess (listing_id message item_name : String) (quantity asking_price : Int)
deriving DecidableEq, Repr

/-- An API-gateway response: status code and JSON body (the constant CORS
headers of the source are omitted). -/
structure Response where
  statusCode : Nat
  body : Body
deriving DecidableEq, Repr

/-- `create_response(status_code, body)` of the source. -/
def create_response (statusCode : Nat) (body : Body) : Response :=
  ⟨statusCode, body⟩

/-- The search predicate of the find loops in `buy_listing` and
`delete_listing`: `listing["listing_id"] == listing_id and
listing["status"] == "active"`. -/
def isActiveFor (listing_id : String) (l : Listing) : Prop :=
  l.listing_id = listing_id ∧ l.status = "active"

instance (listing_id : String) (l : Listing) : Decidable (isActiveFor listing_id l) :=
  inferInstanceAs (Decidable (_ ∧ _))

/-- Auxiliary scan carrying the running index, mirroring
`for i, listing in enumerate(listings)`. -/
def findActiveAux (listing_id : String) : List Listing → Nat → Option (Nat × Listing)
  | [], _ => none
  | l :: rest, i =>
    if isActiveFor listing_id l then some (i, l)
    else findActiveAux listing_id rest (i + 1)

/-- The find loop of `buy_listing` (and `delete_listing`): index and value of
the first listing with the given id and `status == "active"`, if any. -/
def findActive (listings : List Listing) (listing_id : String) : Option (Nat × Listing) :=
  findActiveAux listing_id listings 0

/-- The in-place mutation of `buy_listing` step "Mark listing as sold":
set `status`, attach `buyer_id`, `buyer_name`, `sold_at`. -/
def soldListing (t : Listing) (bid bname now : String) : Listing :=
  { t with status := "sold", buyer_id := some bid, buyer_name := some bname,
           sold_at := some now }

/-- The in-place mutation of `delete_listing`: set `status = "removed"`,
attach `removed_at`. -/
def removedListing (t : Listing) (now : String) : Listing :=
  { t with status := "removed", removed_at := some now }

/-- The inventory-validation sum of `create_listing`: total `quantity` over
the seller's own active listings of the same `item_type`. -/
def existing_quantity_for (listings : List Listing) (sid itype : String) : Int :=
  listings.foldl
    (fun acc l =>
      if l.seller_id = sid ∧ l.item_type = itype ∧ l.status = "active" then
        acc + l.quantity
      else acc) 0

/-- `MAX_LISTED_QUANTITY_PER_ITEM` of the source. -/
def MAX_LISTED_QUANTITY_PER_ITEM : Int := 50

/-! ### Store-interaction environments

A single call of an operation performs a sequence of reads of the listings
document and a sequence of conditional writes.  `ListEnv` abstracts the
store as seen by that call: `read k` / `readTok k` give the document and
ETag returned by the k-th `load_from_s3(LISTINGS_KEY)` of the call, and
`save k` gives the outcome of the k-th conditional
`save_to_s3_with_etag(LISTINGS_KEY, ...)`.  `TradeEnv` does the same for
the trades document.  Quantifying over environments covers every possible
interference by concurrent writers and every store fault. -/

/-- Outcome of one `save_to_s3_with_etag` call, as discriminated by the
source's `except ClientError` handlers: success, `PreconditionFailed`
(ETag mismatch), or any other `ClientError`. -/
inductive SaveOut where
  | ok
  | precondFailed
  | otherError
deriving DecidableEq, Repr

/-- Store behaviour for the listings document during one operation call. -/
structure ListEnv where
  read : Nat → List Listing
  readTok : Nat → Option String
  save : Nat → SaveOut

/-- Store behaviour for the trades document during one operation call. -/
structure TradeEnv where
  read : Nat → List Trade
  readTok : Nat → Option String
  save : Nat → SaveOut

/-- A write request against the listings document: the document written and
the `expected_etag` passed to `save_to_s3_with_etag`. -/
abbrev WriteReq := List Listing × Option String

/-- A write request against the trades document. -/
abbrev TradeWriteReq := List Trade × Option String

/-- `buyer_data`, the JSON body of `POST .../buy`. -/
structure BuyerData where
  buyer_id : Option String
  buyer_name : Option String
  expected_price : Option Int
deriving DecidableEq, Repr

/-- Result of `buy_listing`'s retry loop, carrying the write requests the
loop issued: an early `return` with a response, a committed sale (the loop's
`break`, remembering the found index and target listing), or an exception
propagating to the outer handler (`raise e` on a non-precondition error). -/
inductive BuyLoopRes where
  | early (r : Response) (log : List WriteReq)
  | committed (i : Nat) (target : Listing) (newListings : List Listing) (log : List WriteReq)
  | raised (log : List WriteReq)
deriving DecidableEq, Repr

/-- Prepend a write request to the log of a loop result. -/
def pushW (w : WriteReq) : BuyLoopRes → BuyLoopRes
  | .early r log => .early r (w :: log)
  | .committed i t nl log => .committed i t nl (w :: log)
  | .raised log => .raised (w :: log)

/-- The body of `buy_listing`'s `for attempt in range(max_retries)` loop.
`fuel` is the number of remaining iterations (initially 3 = `max_retries`),
`attempt` the current iteration index; the source's retry condition
`attempt < max_retries - 1` is exactly `fuel > 1`, i.e. the inner match on
`fuel`.  Each iteration reads afresh (`lenv.read attempt`), locates the
active listing, runs the self-trade and expected-price checks, mutates the
snapshot and attempts the conditional write. -/
def buy_attempt_loop (lenv : ListEnv) (listing_id bid bname : String)
    (expected_price : Option Int) (now : String) :
    Nat → Nat → BuyLoopRes
  | 0, _ => .raised []
  | fuel + 1, attempt =>
    let listings := lenv.read attempt
    let etag := lenv.readTok attempt
    match findActive listings listing_id with
    | none => .early (create_response 404 (.err "Listing not found or already sold")) []
    | some (i, target) =>
      if target.seller_id = bid then
        .early (create_response 400 (.err "Cannot buy your own listing")) []
      else
        match expected_price with
        | some p =>
          if target.asking_price ≠ p then
            .early (create_response 409 (.priceChanged "Price changed" target.asking_price p)) []
          else
            let newListings := listings.set i (soldListing target bid bname now)
            match lenv.save attempt with
            | .ok => .committed i target newListings [(newListings, etag)]
            | .precondFailed =>
              match fuel with
              | 0 => .early (create_response 409 (.err "Item was purchased by another player"))
                  [(newListings, etag)]
              | _ + 1 => pushW (newListings, etag)
                  (buy_attempt_loop lenv listing_id bid bname expected_price now fuel (attempt + 1))
            | .otherError => .raised [(newListings, etag)]
        | none =>
          let newListings := listings.set i (soldListing target bid bname now)
          match lenv.save attempt with
          | .ok => .committed i target newListings [(newListings, etag)]
          | .precondFailed =>
            match fuel with
            | 0 => .early (create_response 409 (.err "Item was purchased by another player"))
                [(newListings, etag)]
            | _ + 1 => pushW (newListings, etag)
                (buy_attempt_loop lenv listing_id bid bname expected_price now fuel (attempt + 1))
          | .otherError => .raised [(newListings, etag)]

/-- The trade-record appended after a committed sale, from the aliased
`target_listing` (whose copied fields are unchanged by the sold-mutation)
and the buyer data. -/
def mkTrade (trade_id listing_id : String) (target : Listing) (bid bname now : String) : Trade :=
  ⟨trade_id, listing_id, target.seller_id, target.seller_name, bid, bname,
   target.item_type, target.item_name, target.quantity, target.asking_price, now⟩

/-- The trade-record save loop of `buy_listing`: read, append, conditional
write; retry only on `PreconditionFailed` with attempts left; any terminal
failure is logged and `break`s — it never raises past the loop.  Returns
the trade write requests issued. -/
def trade_append_loop (tenv : TradeEnv) (tr : Trade) : Nat → Nat → List TradeWriteReq
  | 0, _ => []
  | fuel + 1, attempt =>
    let trades := tenv.read attempt
    let newTrades := trades ++ [tr]
    let w : TradeWriteReq := (newTrades, tenv.readTok attempt)
    match tenv.save attempt with
    | .ok => [w]
    | .precondFailed =>
      match fuel with
      | 0 => [w]
      | _ + 1 => w :: trade_append_loop tenv tr fuel (attempt + 1)
    | .otherError => [w]

/-- `buy_listing(listing_id, buyer_data)`: validation, the CAS retry loop,
then the trade-record append and the success response.  Returns the
response together with the logs of listings-writes and trades-writes
issued.  `trade_id` and `now` stand for the `uuid4()` and `datetime.now()`
calls. -/
def buy_listing (lenv : ListEnv) (tenv : TradeEnv) (listing_id : Option String)
    (buyer_data : BuyerData) (trade_id now : String) :
    Response × List WriteReq × List TradeWriteReq :=
  match listing_id with
  | none => (create_response 400 (.err "Missing listing ID"), [], [])
  | some lid =>
    if lid = "" then (create_response 400 (.err "Missing listing ID"), [], [])
    else
      match buyer_data.buyer_id, buyer_data.buyer_name with
      | some bid, some bname =>
        match buy_attempt_loop lenv lid bid bname buyer_data.expected_price now 3 0 with
        | .early r log => (r, log, [])
        | .raised log => (create_response 500 (.err "Failed to complete purchase"), log, [])
        | .committed _ target _ log =>
          let trade := mkTrade trade_id lid target bid bname now
          (create_response 200
            (.buySuccess trade target.item_type target.item_name
              target.quantity target.asking_price),
           log, trade_append_loop tenv trade 3 0)
      | _, _ => (create_response 400 (.err "Missing buyer_id or buyer_name"), [], [])

/-- `listing_data`, the JSON body of `POST /listings`; each required field
may be missing. -/
structure CreateData where
  seller_id : Option String
  seller_name : Option String
  item_type : Option String
  item_name : Option String
  quantity : Option Int
  asking_price : Option Int
  description : Option String
deriving DecidableEq, Repr

/-- The `for field in required_fields` presence check of `create_listing`,
returning the first missing field name, in the source's order. -/
def missing_required_field (d : CreateData) : Option String :=
  if d.seller_id = none then some "seller_id"
  else if d.seller_name = none then some "seller_name"
  else if d.item_type = none then some "item_type"
  else if d.item_name = none then some "item_name"
  else if d.quantity = none then some "quantity"
  else if d.asking_price = none then some "asking_price"
  else none

/-- Result of `create_listing`'s retry loop: a successful write (`break`)
or an exception propagating to the outer handler (`raise e`, both on a
non-precondition error and on exhausting the retries). -/
inductive CreateLoopRes where
  | okC (log : List WriteReq)
  | raisedC (log : List WriteReq)
deriving DecidableEq, Repr

/-- The retry loop of `create_listing`.  Its reads are the call's 2nd, 3rd,
... reads of the listings document (index `attempt + 1`), because the
inventory-validation read at the top of `create_listing` is read 0.
On `PreconditionFailed` with `attempt < max_retries - 1` it retries with a
fresh read; otherwise it raises. -/
def create_attempt_loop (lenv : ListEnv) (listing : Listing) :
    Nat → Nat → CreateLoopRes
  | 0, _ => .raisedC []
  | fuel + 1, attempt =>
    let listings := lenv.read (attempt + 1)
    let etag := lenv.readTok (attempt + 1)
    let newListings := listings ++ [listing]
    let w : WriteReq := (newListings, etag)
    match lenv.save attempt with
    | .ok => .okC [w]
    | .precondFailed =>
      match fuel with
      | 0 => .raisedC [w]
      | _ + 1 =>
        match create_attempt_loop lenv listing fuel (attempt + 1) with
        | .okC log => .okC (w :: log)
        | .raisedC log => .raisedC (w :: log)
    | .otherError => .raisedC [w]

/-- `create_listing(listing_data)`: field-presence and positivity
validation, the inventory-capacity check against the validation read
(`lenv.read 0`), construction of the new listing, then the retry loop.
`listing_id` and `now` stand for the `uuid4()` and `datetime.now()` calls.
Returns the response and the write requests issued. -/
def create_listing (lenv : ListEnv) (listing_data : CreateData)
    (listing_id now : String) : Response × List WriteReq :=
  match missing_required_field listing_data with
  | some f => (create_response 400 (.err ("Missing field: " ++ f)), [])
  | none =>
    let sid := listing_data.seller_id.getD ""
    let sname := listing_data.seller_name.getD ""
    let itype := listing_data.item_type.getD ""
    let iname := listing_data.item_name.getD ""
    let qty := listing_data.quantity.getD 0
    let price := listing_data.asking_price.getD 0
    if qty ≤ 0 then (create_response 400 (.err "Quantity must be a positive integer"), [])
    else if price ≤ 0 then
      (create_response 400 (.err "Asking price must be a positive integer"), [])
    else
      let current_listings := lenv.read 0
      let existing_quantity := existing_quantity_for current_listings sid itype
      let total_after_listing := existing_quantity + qty
      if total_after_listing > MAX_LISTED_QUANTITY_PER_ITEM then
        (create_response 400
          (.capacity "Server validation failed: would exceed maximum per item type"
            existing_quantity qty MAX_LISTED_QUANTITY_PER_ITEM), [])
      else
        let listing : Listing :=
          ⟨listing_id, sid, sname, itype, iname, qty, price,
           listing_data.description.getD "", "active", now, none, none, none, none⟩
        match create_attempt_loop lenv listing 3 0 with
        | .okC log => (create_response 201 (.createSuccess listing), log)
        | .raisedC log => (create_response 500 (.err "Failed to create listing"), log)

/-- `seller_data`, the JSON body of `DELETE /listings/{id}`. -/
structure SellerData where
  seller_id : Option String
deriving DecidableEq, Repr

/-- Result of `delete_listing`'s retry loop: early `return`, successful
removal (carrying the mutated target for the response), or a propagating
exception (`raise e` on non-precondition error or retry exhaustion). -/
inductive DeleteLoopRes where
  | earlyD (r : Response) (log : List WriteReq)
  | okD (target : Listing) (log : List WriteReq)
  | raisedD (log : List WriteReq)
deriving DecidableEq, Repr

/-- The retry loop of `delete_listing`: read, locate the active listing
(404 if absent), ownership check (403 on mismatch), mutate to removed,
conditional write; `PreconditionFailed` retries while attempts remain and
otherwise raises. -/
def delete_attempt_loop (lenv : ListEnv) (listing_id sid now : String) :
    Nat → Nat → DeleteLoopRes
  | 0, _ => .raisedD []
  | fuel + 1, attempt =>
    let listings := lenv.read attempt
    let etag := lenv.readTok attempt
    match findActive listings listing_id with
    | none => .earlyD (create_response 404 (.err "Listing not found or already removed")) []
    | some (i, target) =>
      if target.seller_id ≠ sid then
        .earlyD (create_response 403 (.err "You can only remove your own listings")) []
      else
        let newListings := listings.set i (removedListing target now)
        let w : WriteReq := (newListings, etag)
        match lenv.save attempt with
        | .ok => .okD (removedListing target now) [w]
        | .precondFailed =>
          match fuel with
          | 0 => .raisedD [w]
          | _ + 1 =>
            match delete_attempt_loop lenv listing_id sid now fuel (attempt + 1) with
            | .earlyD r log => .earlyD r (w :: log)
            | .okD t log => .okD t (w :: log)
            | .raisedD log => .raisedD (w :: log)
        | .otherError => .raisedD [w]

/-- `delete_listing(listing_id, seller_data)`: validation, the retry loop,
and the success response built from the (aliased, post-mutation) target
listing, whose `item_name`, `quantity`, `asking_price` the removal does
not touch. -/
def delete_listing (lenv : ListEnv) (listing_id : Option String)
    (seller_data : SellerData) (now : String) : Response × List WriteReq :=
  match listing_id with
  | none => (create_response 400 (.err "Missing listing ID"), [])
  | some lid =>
    if lid = "" then (create_response 400 (.err "Missing listing ID"), [])
    else
      match seller_data.seller_id with
      | none => (create_response 400 (.err "Missing seller_id"), [])
      | some sid =>
        match delete_attempt_loop lenv lid sid now 3 0 with
        | .earlyD r log => (r, log)
        | .okD target log =>
          (create_response 200
            (.deleteSuccess lid "Listing removed successfully"
              target.item_name target.quantity target.asking_price), log)
        | .raisedD log => (create_response 500 (.err "Failed to remove listing"), log)

/-! ### The store helpers `load_from_s3` and `save_to_s3_with_etag` -/

/-- What one `s3.get_object` call can yield, as discriminated by the
source's handlers: the document with its ETag, `NoSuchKey` (never
written), or any other error. -/
inductive ReadOut where
  | found (data : List Listing) (etag : String)
  | noSuchKey
  | otherError
deriving DecidableEq, Repr

/-- `load_from_s3(key)`: document plus ETag on success; on `NoSuchKey`
**and on every other error** it returns the empty list with an absent
ETag (`return [], None` in both handlers). -/
def load_from_s3 : ReadOut → List Listing × Option String
  | .found data etag => (data, some etag)
  | .noSuchKey => ([], none)
  | .otherError => ([], none)

/-- Python truthiness of the `expected_etag` argument, as tested by
`if expected_etag:` — `None` and the empty string are falsy. -/
def etag_truthy : Option String → Bool
  | none => false
  | some s => decide (s ≠ "")

/-- The `put_object` request built by `save_to_s3_with_etag`: the document
and whether (and with what value) an `IfMatch` precondition is attached. -/
structure PutRequest where
  body : List Listing
  hasIfMatch : Bool
  ifMatch : Option String
deriving DecidableEq, Repr

/-- `save_to_s3_with_etag(key, data, expected_etag)`: the `IfMatch`
precondition is attached exactly when `expected_etag` is truthy; otherwise
the put is unconditional. -/
def save_to_s3_with_etag (data : List Listing) (expected_etag : Option String) : PutRequest :=
  if etag_truthy expected_etag then ⟨data, true, expected_etag⟩
  else ⟨data, false, none⟩

/-! ### Concurrent model of racing `buy_listing` calls

For the at-most-one-winner property we model the store as the listings
document paired with a version counter (abstracting the ETag: every
accepted write changes it), and each concurrent `buy_listing` caller as a
process executing the retry loop.  The store grants two atomic actions,
exactly the two S3 round trips of the loop body: an atomic read
(`load_from_s3`, returning document and token) and an atomic conditional
write (`save_to_s3_with_etag` with `IfMatch`, succeeding iff the token is
still current).  The checks between them are process-local, so they are
bundled with the write step without loss of generality. -/

/-- The store: listings document plus version counter. -/
abbrev StoreSt := List Listing × Nat

/-- Terminal outcome of one concurrent `buy_listing` caller, matching the
operation's returns: success (200), not-found (404), self-trade (400),
price-changed (409), or retries exhausted (409 conflict). -/
inductive BuyOutcome where
  | success
  | notFound
  | selfTrade
  | priceChanged
  | conflict
deriving DecidableEq, Repr

/-- Local state of one caller: about to read (at iteration `attempt`),
holding a freshly read snapshot and token, or finished. -/
inductive PState where
  | ready (attempt : Nat)
  | haveRead (attempt : Nat) (snap : List Listing) (tok : Nat)
  | done (o : BuyOutcome)
deriving DecidableEq, Repr

/-- One racing buyer's request data (validation already passed:
`buyer_id`/`buyer_name` present). -/
structure Buyer where
  buyer_id : String
  buyer_name : String
  expected_price : Option Int
deriving DecidableEq, Repr

/-- The expected-price guard: `"expected_price" in buyer_data and
asking_price != expected_price`. -/
def price_mismatch (expected_price : Option Int) (asking : Int) : Bool :=
  match expected_price with
  | none => false
  | some p => decide (asking ≠ p)

/-- The remainder of one loop iteration after the read: locate the active
listing (else 404, no retry), self-trade check (400, no retry),
expected-price check (409, no retry), then the conditional write — it
succeeds iff the store's version still equals the token read, in which
case the mutated snapshot becomes the new document; on a version conflict
the caller retries while `attempt < max_retries - 1` (`max_retries = 3`)
and otherwise finishes with the conflict outcome. -/
def resolveAttempt (listing_id : String) (b : Buyer) (now : String)
    (attempt : Nat) (snap : List Listing) (tok : Nat) (st : StoreSt) :
    StoreSt × PState :=
  match findActive snap listing_id with
  | none => (st, .done .notFound)
  | some (i, target) =>
    if target.seller_id = b.buyer_id then (st, .done .selfTrade)
    else if price_mismatch b.expected_price target.asking_price then
      (st, .done .priceChanged)
    else if st.2 = tok then
      ((snap.set i (soldListing target b.buyer_id b.buyer_name now), st.2 + 1),
       .done .success)
    else if attempt < 2 then (st, .ready (attempt + 1))
    else (st, .done .conflict)

/-- Interleaving semantics of `n` concurrent `buy_listing` callers against
one store: a step is either an atomic read by one caller or the atomic
resolution (checks plus conditional write) of a read it holds; all other
callers are untouched. -/
inductive BStep (n : Nat) (listing_id : String) (bs : Fin n → Buyer) (now : String) :
    StoreSt × (Fin n → PState) → StoreSt × (Fin n → PState) → Prop
  | read (st : StoreSt) (ps ps' : Fin n → PState) (i : Fin n) (a : Nat) :
      ps i = .ready a →
      ps' i = .haveRead a st.1 st.2 →
      (∀ j, j ≠ i → ps' j = ps j) →
      BStep n listing_id bs now (st, ps) (st, ps')
  | resolve (st : StoreSt) (ps ps' : Fin n → PState) (i : Fin n) (a : Nat)
      (snap : List Listing) (tok : Nat) :
      ps i = .haveRead a snap tok →
      ps' i = (resolveAttempt listing_id (bs i) now a snap tok st).2 →
      (∀ j, j ≠ i → ps' j = ps j) →
      BStep n listing_id bs now (st, ps)
        ((resolveAttempt listing_id (bs i) now a snap tok st).1, ps')

/-- Reachability under the interleaving semantics. -/
def BuyReach (n : Nat) (listing_id : String) (bs : Fin n → Buyer) (now : String) :
    StoreSt × (Fin n → PState) → StoreSt × (Fin n → PState) → Prop :=
  Relation.ReflTransGen (BStep n listing_id bs now)

/-- The listings document after the winner `b` committed. -/
def soldStore (L0 : List Listing) (i0 : Nat) (t0 : Listing) (b : Buyer) (now : String) :
    List Listing :=
  L0.set i0 (soldListing t0 b.buyer_id b.buyer_name now)

/-- Local states possible before any write has been accepted: not finished,
and any held snapshot is the initial document with the initial token. -/
def AState (L0 : List Listing) (v0 : Nat) (p : PState) : Prop :=
  (∃ a, p = .ready a) ∨ (∃ a, p = .haveRead a L0 v0)

/-- Local states possible for a non-winning caller after the winner
committed: still running (holding either the stale initial snapshot or the
post-commit snapshot), or finished with not-found or conflict. -/
def LoserState (L0 : List Listing) (v0 : Nat) (LB : List Listing) (p : PState) : Prop :=
  (∃ a, p = .ready a) ∨ (∃ a, p = .haveRead a L0 v0) ∨
    (∃ a, p = .haveRead a LB (v0 + 1)) ∨
    p = .done .notFound ∨ p = .done .conflict

/-- The race invariant: either no write has been accepted yet (store still
initial, everybody in an `AState`), or exactly one caller `w` has won —
the store holds the sold document at the bumped version and every other
caller is in a `LoserState`. -/
def BuyInv (n : Nat) (bs : Fin n → Buyer) (now : String)
    (L0 : List Listing) (v0 : Nat) (i0 : Nat) (t0 : Listing)
    (s : StoreSt × (Fin n → PState)) : Prop :=
  (s.1 = (L0, v0) ∧ ∀ i, AState L0 v0 (s.2 i)) ∨
  (∃ w : Fin n, s.2 w = .done .success ∧
    s.1 = (soldStore L0 i0 t0 (bs w) now, v0 + 1) ∧
    ∀ i, i ≠ w → LoserState L0 v0 (soldStore L0 i0 t0 (bs w) now) (s.2 i))

/-! ### Facts about `findActive` and `resolveAttempt` -/

theorem findActiveAux_some (listing_id : String) :
    ∀ (L : List Listing) (k i : Nat) (t : Listing),
      findActiveAux listing_id L k = some (i, t) →
      k ≤ i ∧ L.get? (i - k) = some t ∧ isActiveFor listing_id t := by
  intro L
  induction L with
  | nil => intro k i t h; simp [findActiveAux] at h
  | cons l rest ih =>
    intro k i t h
    by_cases hl : isActiveFor listing_id l
    · simp [findActiveAux, hl] at h
      obtain ⟨hi, ht⟩ := h
      subst hi; subst ht
      exact ⟨le_refl _, by simp, hl⟩
    · simp [findActiveAux, hl] at h
      obtain ⟨hk, hg, ha⟩ := ih (k + 1) i t h
      refine ⟨by omega, ?_, ha⟩
      have : i - k = (i - (k + 1)) + 1 := by omega
      rw [this]
      simpa using hg

theorem findActive_some {L : List Listing} {listing_id : String} {i : Nat} {t : Listing}
    (h : findActive L listing_id = some (i, t)) :
    L.get? i = some t ∧ isActiveFor listing_id t := by
  have := findActiveAux_some listing_id L 0 i t h
  simpa using this.2

theorem findActiveAux_none (listing_id : String) :
    ∀ (L : List Listing) (k : Nat),
      (∀ l ∈ L, ¬ isActiveFor listing_id l) → findActiveAux listing_id L k = none := by
  intro L
  induction L with
  | nil => intro k _; rfl
  | cons l rest ih =>
    intro k h
    have hl : ¬ isActiveFor listing_id l := h l (by simp)
    simp [findActiveAux, hl]
    exact ih (k + 1) fun x hx => h x (by simp [hx])

theorem findActive_eq_none {L : List Listing} {listing_id : String}
    (h : ∀ l ∈ L, ¬ isActiveFor listing_id l) : findActive L listing_id = none :=
  findActiveAux_none listing_id L 0 h

/-- After the winner's commit no listing in the document matches the find
predicate any more: the target is now `sold`, and by uniqueness of the id
no other listing matches. -/
theorem findActive_soldStore {L0 : List Listing} {listing_id : String}
    {i0 : Nat} {t0 : Listing}
    (hfind : findActive L0 listing_id = some (i0, t0))
    (huniq : ∀ j u, L0.get? j = some u → isActiveFor listing_id u → j = i0)
    (b : Buyer) (now : String) :
    findActive (soldStore L0 i0 t0 b now) listing_id = none := by
  obtain ⟨hget, _⟩ := findActive_some hfind
  have hlt : i0 < L0.length := by
    rcases List.get?_eq_some.mp hget with ⟨h, _⟩
    exact h
  apply findActive_eq_none
  intro l hl hact
  rcases List.mem_iff_get?.mp hl with ⟨j, hj⟩
  by_cases hji : j = i0
  · subst hji
    rw [soldStore, List.get?_set_eq_of_lt _ hlt] at hj
    injection hj with h'
    rw [← h'] at hact
    have hs : (soldListing t0 b.buyer_id b.buyer_name now).status = "sold" := rfl
    obtain ⟨-, hact2⟩ := hact
    rw [hs] at hact2
    exact absurd hact2 (by decide)
  · have hne : (L0.set i0 (soldListing t0 b.buyer_id b.buyer_name now)).get? j = L0.get? j :=
      List.get?_set_ne _ _ (fun h => hji h.symm)
    rw [soldStore, hne] at hj
    exact hji (huniq j l hj hact)

theorem resolveAttempt_notFound {snap : List Listing} {listing_id : String}
    (b : Buyer) (now : String) (a : Nat) (tok : Nat) (st : StoreSt)
    (h : findActive snap listing_id = none) :
    resolveAttempt listing_id b now a snap tok st = (st, .done .notFound) := by
  simp [resolveAttempt, h]

theorem resolveAttempt_winner {snap : List Listing} {listing_id : String}
    {i : Nat} {t : Listing} (b : Buyer) (now : String) (a : Nat) {tok : Nat} {st : StoreSt}
    (h : findActive snap listing_id = some (i, t))
    (h2 : t.seller_id ≠ b.buyer_id)
    (h3 : price_mismatch b.expected_price t.asking_price = false)
    (h4 : st.2 = tok) :
    resolveAttempt listing_id b now a snap tok st =
      ((snap.set i (soldListing t b.buyer_id b.buyer_name now), st.2 + 1),
       .done .success) := by
  simp [resolveAttempt, h, h2, h3, h4]

theorem resolveAttempt_stale {snap : List Listing} {listing_id : String}
    {i : Nat} {t : Listing} (b : Buyer) (now : String) (a : Nat) {tok : Nat} {st : StoreSt}
    (h : findActive snap listing_id = some (i, t))
    (h2 : t.seller_id ≠ b.buyer_id)
    (h3 : price_mismatch b.expected_price t.asking_price = false)
    (h4 : st.2 ≠ tok) :
    resolveAttempt listing_id b now a snap tok st =
      (st, if a < 2 then .ready (a + 1) else .done .conflict) := by
  simp [resolveAttempt, h, h2, h3, h4]
  split <;> rfl

/-- One interleaved step preserves the race invariant. -/
theorem BuyInv_preserved
    {n : Nat} {listing_id now : String} {bs : Fin n → Buyer}
    {L0 : List Listing} {v0 : Nat} {i0 : Nat} {t0 : Listing}
    (hfind : findActive L0 listing_id = some (i0, t0))
    (huniq : ∀ j u, L0.get? j = some u → isActiveFor listing_id u → j = i0)
    (hbuyer : ∀ i : Fin n, t0.seller_id ≠ (bs i).buyer_id)
    (hprice : ∀ i : Fin n, price_mismatch (bs i).expected_price t0.asking_price = false)
    {s s' : StoreSt × (Fin n → PState)}
    (hstep : BStep n listing_id bs now s s')
    (hinv : BuyInv n bs now L0 v0 i0 t0 s) :
    BuyInv n bs now L0 v0 i0 t0 s' := by
  unfold BuyInv at hinv ⊢
  cases hstep with
  | read st ps ps' i a hpi hpi' hframe =>
    dsimp only at hinv ⊢
    rcases hinv with ⟨hst, hAll⟩ | ⟨w, hw, hst, hL⟩
    · left
      refine ⟨hst, ?_⟩
      intro j
      by_cases hji : j = i
      · subst hji
        unfold AState
        right
        exact ⟨a, by rw [hpi', show st = (L0, v0) from hst]⟩
      · rw [hframe j hji]; exact hAll j
    · right
      have hiw : i ≠ w := by
        intro h
        rw [h, hw] at hpi
        simp at hpi
      refine ⟨w, ?_, hst, ?_⟩
      · rw [hframe w (Ne.symm hiw)]; exact hw
      · intro j hjw
        by_cases hji : j = i
        · subst hji
          unfold LoserState
          right; right; left
          exact ⟨a, by
            rw [hpi', show st = (soldStore L0 i0 t0 (bs w) now, v0 + 1) from hst]⟩
        · rw [hframe j hji]; exact hL j hjw
  | resolve st ps ps' i a snap tok hpi hpi' hframe =>
    dsimp only at hinv ⊢
    rcases hinv with ⟨hst, hAll⟩ | ⟨w, hw, hst, hL⟩
    · -- no write accepted yet: this resolution is the winning CAS
      have hA := hAll i
      unfold AState at hA
      rcases hA with ⟨a', hr⟩ | ⟨a', hr⟩
      · rw [hpi] at hr; simp at hr
      · rw [hpi] at hr
        injection hr with h1 h2 h3
        subst h2; subst h3
        have hst2 : st.2 = tok := by rw [hst]
        have hcomp := resolveAttempt_winner (bs i) now a hfind (hbuyer i) (hprice i) hst2
        right
        refine ⟨i, ?_, ?_, ?_⟩
        · rw [hpi', hcomp]
        · rw [hcomp, hst]
          rfl
        · intro j hji
          rw [hframe j hji]
          have hAj := hAll j
          unfold AState at hAj
          unfold LoserState
          rcases hAj with ⟨a'', hj⟩ | ⟨a'', hj⟩
          · exact Or.inl ⟨a'', hj⟩
          · exact Or.inr (Or.inl ⟨a'', hj⟩)
    · -- a winner already exists: this resolution cannot commit
      have hiw : i ≠ w := by
        intro h
        rw [h, hw] at hpi
        simp at hpi
      have hLi := hL i hiw
      unfold LoserState at hLi
      rcases hLi with ⟨a', hr⟩ | ⟨a', hr⟩ | ⟨a', hr⟩ | hr | hr
      · rw [hpi] at hr; simp at hr
      · -- stale snapshot: the CAS fails, retry or conflict
        rw [hpi] at hr
        injection hr with h1 h2 h3
        subst h2; subst h3
        have hst2 : st.2 ≠ tok := by
          rw [hst]
          exact Nat.succ_ne_self _
        have hcomp := resolveAttempt_stale (bs i) now a hfind (hbuyer i) (hprice i) hst2
        right
        refine ⟨w, ?_, ?_, ?_⟩
        · rw [hframe w (Ne.symm hiw)]; exact hw
        · rw [hcomp]; exact hst
        · intro j hjw
          by_cases hji : j = i
          · subst hji
            rw [hpi', hcomp]
            unfold LoserState
            by_cases ha : a < 2
            · rw [if_pos ha]
              exact Or.inl ⟨a + 1, rfl⟩
            · rw [if_neg ha]
              exact Or.inr (Or.inr (Or.inr (Or.inr rfl)))
          · rw [hframe j hji]; exact hL j hjw
      · -- fresh snapshot: the listing is already sold, 404
        rw [hpi] at hr
        injection hr with h1 h2 h3
        subst h2; subst h3
        have hcomp := resolveAttempt_notFound (bs i) now a (v0 + 1) st
          (findActive_soldStore hfind huniq (bs w) now)
        right
        refine ⟨w, ?_, ?_, ?_⟩
        · rw [hframe w (Ne.symm hiw)]; exact hw
        · rw [hcomp]; exact hst
        · intro j hjw
          by_cases hji : j = i
          · subst hji
            rw [hpi', hcomp]
            unfold LoserState
            exact Or.inr (Or.inr (Or.inr (Or.inl rfl)))
          · rw [hframe j hji]; exact hL j hjw
      · rw [hpi] at hr; simp at hr
      · rw [hpi] at hr; simp at hr

/-- The race invariant holds in every state reachable from `n` callers all
about to start against the initial store. -/
theorem BuyInv_reach
    {n : Nat} {listing_id now : String} {bs : Fin n → Buyer}
    {L0 : List Listing} {v0 : Nat} {i0 : Nat} {t0 : Listing}
    (hfind : findActive L0 listing_id = some (i0, t0))
    (huniq : ∀ j u, L0.get? j = some u → isActiveFor listing_id u → j = i0)
    (hbuyer : ∀ i : Fin n, t0.seller_id ≠ (bs i).buyer_id)
    (hprice : ∀ i : Fin n, price_mismatch (bs i).expected_price t0.asking_price = false)
    {s : StoreSt × (Fin n → PState)}
    (hreach : BuyReach n listing_id bs now ((L0, v0), fun _ => .ready 0) s) :
    BuyInv n bs now L0 v0 i0 t0 s := by
  induction hreach with
  | refl =>
    unfold BuyInv
    left
    refine ⟨rfl, fun i => ?_⟩
    unfold AState
    exact Or.inl ⟨0, rfl⟩
  | tail hsteps hstep ih =>
    exact BuyInv_preserved hfind huniq hbuyer hprice hstep ih

/-- **C1.** For any number of concurrent `buy_listing` calls racing on the
same active listing with valid, distinct buyers, in every reachable state
in which all callers have finished there is a winner `w` such that: `w` is
the only caller that observed success; every other caller observed
not-found (read after the winner's commit) or conflict (lost the CAS race
three times); and the stored document is the initial one with exactly the
target listing replaced by its sold version — `status = "sold"` and
buyer fields equal to the single winner's. -/
theorem buy_listing_at_most_one_winner
    (n : Nat) (hn : 0 < n) (listing_id now : String) (bs : Fin n → Buyer)
    (L0 : List Listing) (v0 i0 : Nat) (t0 : Listing)
    (hfind : findActive L0 listing_id = some (i0, t0))
    (huniq : ∀ j u, L0.get? j = some u → isActiveFor listing_id u → j = i0)
    (hvalid : ∀ i : Fin n, t0.seller_id ≠ (bs i).buyer_id)
    (hprice : ∀ i : Fin n, price_mismatch (bs i).expected_price t0.asking_price = false)
    (hdistinct : Function.Injective fun i : Fin n => (bs i).buyer_id)
    (s : StoreSt × (Fin n → PState))
    (hreach : BuyReach n listing_id bs now ((L0, v0), fun _ => .ready 0) s)
    (hdone : ∀ i, ∃ o, s.2 i = .done o) :
    ∃ w : Fin n,
      s.2 w = .done .success ∧
      (∀ i, s.2 i = .done .success → i = w) ∧
      (∀ i, i ≠ w → s.2 i = .done .notFound ∨ s.2 i = .done .conflict) ∧
      s.1.1 = L0.set i0 (soldListing t0 (bs w).buyer_id (bs w).buyer_name now) ∧
      s.1.1.get? i0 = some (soldListing t0 (bs w).buyer_id (bs w).buyer_name now) ∧
      (soldListing t0 (bs w).buyer_id (bs w).buyer_name now).status = "sold" ∧
      (soldListing t0 (bs w).buyer_id (bs w).buyer_name now).buyer_id
        = some (bs w).buyer_id ∧
      (soldListing t0 (bs w).buyer_id (bs w).buyer_name now).buyer_name
        = some (bs w).buyer_name := by
  have hinv := BuyInv_reach hfind huniq hvalid hprice hreach
  unfold BuyInv at hinv
  have hlt : i0 < L0.length := by
    obtain ⟨hget, -⟩ := findActive_some hfind
    rcases List.get?_eq_some.mp hget with ⟨h, -⟩
    exact h
  rcases hinv with ⟨-, hAll⟩ | ⟨w, hw, hst, hL⟩
  · -- impossible: with everybody finished, somebody is not in an `AState`
    exfalso
    obtain ⟨o, ho⟩ := hdone ⟨0, hn⟩
    have := hAll ⟨0, hn⟩
    unfold AState at this
    rcases this with ⟨a, hr⟩ | ⟨a, hr⟩ <;> rw [ho] at hr <;> simp at hr
  · have hlosers : ∀ i, i ≠ w → s.2 i = .done .notFound ∨ s.2 i = .done .conflict := by
      intro i hiw
      have hLi := hL i hiw
      unfold LoserState at hLi
      obtain ⟨o, ho⟩ := hdone i
      rcases hLi with ⟨a, hr⟩ | ⟨a, hr⟩ | ⟨a, hr⟩ | hr | hr
      · rw [ho] at hr; simp at hr
      · rw [ho] at hr; simp at hr
      · rw [ho] at hr; simp at hr
      · exact Or.inl hr
      · exact Or.inr hr
    have hstore : s.1.1 = L0.set i0 (soldListing t0 (bs w).buyer_id (bs w).buyer_name now) := by
      rw [hst]
      rfl
    refine ⟨w, hw, ?_, hlosers, hstore, ?_, rfl, rfl, rfl⟩
    · intro i hi
      by_contra hiw
      rcases hlosers i hiw with hr | hr <;> rw [hi] at hr <;> simp at hr
    · rw [hstore]
      exact List.get?_set_eq_of_lt _ hlt

/-! ### A concrete two-buyer race for the witness -/

/-- A concrete active listing for the two-buyer race. -/
def raceListing : Listing :=
  ⟨"L1", "s1", "SellerOne", "ore", "Iron Ore", 5, 100, "", "active", "T0",
   none, none, none, none⟩

/-- Two distinct valid buyers. -/
def raceBuyers : Fin 2 → Buyer := fun i =>
  if i = 0 then ⟨"b1", "BuyerOne", none⟩ else ⟨"b2", "BuyerTwo", none⟩

/-- After buyer 0's read. -/
def racePs1 : Fin 2 → PState := fun i =>
  if i = 0 then .haveRead 0 [raceListing] 0 else .ready 0

/-- The store after buyer 0's resolution (the winning CAS). -/
def raceSt2 : StoreSt :=
  (resolveAttempt "L1" (raceBuyers 0) "T1" 0 [raceListing] 0 ([raceListing], 0)).1

/-- After buyer 0's resolution. -/
def racePs2 : Fin 2 → PState := fun i =>
  if i = 0 then (resolveAttempt "L1" (raceBuyers 0) "T1" 0 [raceListing] 0 ([raceListing], 0)).2
  else .ready 0

/-- After buyer 1's read of the post-commit store. -/
def racePs3 : Fin 2 → PState := fun i =>
  if i = 0 then racePs2 0 else .haveRead 0 raceSt2.1 raceSt2.2

/-- The final state: buyer 1 resolves its fresh read (finding no active
listing) and finishes. -/
def raceFinal : StoreSt × (Fin 2 → PState) :=
  ((resolveAttempt "L1" (raceBuyers 1) "T1" 0 raceSt2.1 raceSt2.2 raceSt2).1,
   fun i =>
     if i = 0 then racePs2 0
     else (resolveAttempt "L1" (raceBuyers 1) "T1" 0 raceSt2.1 raceSt2.2 raceSt2).2)

/-- The four-step schedule read₀, resolve₀, read₁, resolve₁ reaches
`raceFinal` from the initial race state. -/
theorem race_reach :
    BuyReach 2 "L1" raceBuyers "T1" (([raceListing], 0), fun _ => .ready 0) raceFinal := by
  have h1 : BStep 2 "L1" raceBuyers "T1"
      (([raceListing], 0), fun _ => .ready 0) (([raceListing], 0), racePs1) :=
    .read _ _ _ 0 0 rfl rfl (by decide)
  have h2 : BStep 2 "L1" raceBuyers "T1"
      (([raceListing], 0), racePs1) (raceSt2, racePs2) :=
    .resolve _ _ _ 0 0 [raceListing] 0 rfl rfl (by decide)
  have h3 : BStep 2 "L1" raceBuyers "T1" (raceSt2, racePs2) (raceSt2, racePs3) :=
    .read _ _ _ 1 0 rfl rfl (by decide)
  have h4 : BStep 2 "L1" raceBuyers "T1" (raceSt2, racePs3) raceFinal :=
    .resolve _ _ _ 1 0 raceSt2.1 raceSt2.2 rfl rfl (by decide)
  exact ((((Relation.ReflTransGen.refl).tail h1).tail h2).tail h3).tail h4

/-- Witness for C1: in the concrete completed two-buyer race the theorem
produces the single winner, the loser's not-found outcome and the sold
stored listing. -/
theorem buy_listing_at_most_one_winner_witness :
    ∃ w : Fin 2,
      raceFinal.2 w = .done .success ∧
      (∀ i, raceFinal.2 i = .done .success → i = w) ∧
      (∀ i, i ≠ w → raceFinal.2 i = .done .notFound ∨ raceFinal.2 i = .done .conflict) ∧
      raceFinal.1.1 = [raceListing].set 0
        (soldListing raceListing (raceBuyers w).buyer_id (raceBuyers w).buyer_name "T1") ∧
      raceFinal.1.1.get? 0 = some
        (soldListing raceListing (raceBuyers w).buyer_id (raceBuyers w).buyer_name "T1") ∧
      (soldListing raceListing (raceBuyers w).buyer_id (raceBuyers w).buyer_name "T1").status
        = "sold" ∧
      (soldListing raceListing (raceBuyers w).buyer_id (raceBuyers w).buyer_name "T1").buyer_id
        = some (raceBuyers w).buyer_id ∧
      (soldListing raceListing (raceBuyers w).buyer_id (raceBuyers w).buyer_name "T1").buyer_name
        = some (raceBuyers w).buyer_name := by
  refine buy_listing_at_most_one_winner 2 (by decide) "L1" "T1" raceBuyers
    [raceListing] 0 0 raceListing (by decide) ?_ (by decide) (by decide) ?_
    raceFinal race_reach ?_
  · intro j u h hu
    match j with
    | 0 => rfl
    | j + 1 => simp at h
  · intro a b h
    fin_cases a <;> fin_cases b <;> simp_all [raceBuyers]
  · intro i
    fin_cases i
    · exact ⟨.success, rfl⟩
    · exact ⟨.notFound, rfl⟩

/-! ### Sequential claims about `buy_listing`, `create_listing`, `delete_listing` -/

/-- **C3.** Whenever the active listing located by `buy_listing` has
`seller_id` equal to the buyer's id, the call fails with the self-trade
error (400, "Cannot buy your own listing") immediately: for every store
behaviour (any ETags, any save outcomes, any later reads) the result is
that error and no write request at all is issued, to either document. -/
theorem buy_listing_self_trade
    (lenv : ListEnv) (tenv : TradeEnv) (lid : String) (bd : BuyerData)
    (bid bname trade_id now : String) (i : Nat) (t : Listing)
    (hlid : lid ≠ "")
    (hbid : bd.buyer_id = some bid) (hbname : bd.buyer_name = some bname)
    (hfind : findActive (lenv.read 0) lid = some (i, t))
    (hself : t.seller_id = bid) :
    buy_listing lenv tenv (some lid) bd trade_id now
      = (create_response 400 (.err "Cannot buy your own listing"), [], []) := by
  simp only [buy_listing, hlid, hbid, hbname, if_neg hlid]
  simp [buy_attempt_loop, hfind, hself]

/-- **C4.** If `buy_listing` is called with an `expected_price` differing
from the located active listing's `asking_price` (and the buyer is not the
seller, which is checked first), it fails with the price-changed error
(409) carrying both the current and the expected price, immediately: for
every store behaviour the result is that error and no write request is
issued, so the stored listing is untouched. -/
theorem buy_listing_price_changed
    (lenv : ListEnv) (tenv : TradeEnv) (lid : String) (bd : BuyerData)
    (bid bname trade_id now : String) (p : Int) (i : Nat) (t : Listing)
    (hlid : lid ≠ "")
    (hbid : bd.buyer_id = some bid) (hbname : bd.buyer_name = some bname)
    (hep : bd.expected_price = some p)
    (hfind : findActive (lenv.read 0) lid = some (i, t))
    (hnotself : t.seller_id ≠ bid)
    (hne : t.asking_price ≠ p) :
    buy_listing lenv tenv (some lid) bd trade_id now
      = (create_response 409 (.priceChanged "Price changed" t.asking_price p), [], []) := by
  simp only [buy_listing, hlid, hbid, hbname, if_neg hlid]
  simp [buy_attempt_loop, hfind, hnotself, hep, hne]

/-- **C5.** `create_listing` enforces the per-seller, per-item-type cap of
50 (`MAX_LISTED_QUANTITY_PER_ITEM`): when the seller's existing active
quantity of that item type plus the requested quantity exceeds 50, the
call fails with the capacity error naming the existing, requested and
maximum quantities and issues no write; when the sum is at most 50 (and
the first conditional write succeeds) the creation succeeds with 201 and
the new active listing. -/
theorem create_listing_capacity
    (lenv : ListEnv) (cd : CreateData) (lid now : String)
    (sid sname itype iname ds : String) (q p : Int)
    (h1 : cd.seller_id = some sid) (h2 : cd.seller_name = some sname)
    (h3 : cd.item_type = some itype) (h4 : cd.item_name = some iname)
    (h5 : cd.quantity = some q) (h6 : cd.asking_price = some p)
    (h7 : cd.description = some ds)
    (hq : 0 < q) (hp : 0 < p) :
    (existing_quantity_for (lenv.read 0) sid itype + q > MAX_LISTED_QUANTITY_PER_ITEM →
      create_listing lenv cd lid now
        = (create_response 400
            (.capacity "Server validation failed: would exceed maximum per item type"
              (existing_quantity_for (lenv.read 0) sid itype) q
              MAX_LISTED_QUANTITY_PER_ITEM), [])) ∧
    (existing_quantity_for (lenv.read 0) sid itype + q ≤ MAX_LISTED_QUANTITY_PER_ITEM →
      lenv.save 0 = .ok →
      create_listing lenv cd lid now
        = (create_response 201 (.createSuccess
            ⟨lid, sid, sname, itype, iname, q, p, ds, "active", now,
             none, none, none, none⟩),
           [(lenv.read 1 ++
              [⟨lid, sid, sname, itype, iname, q, p, ds, "active", now,
                none, none, none, none⟩], lenv.readTok 1)])) := by
  constructor
  · intro hover
    simp only [create_listing, missing_required_field, h1, h2, h3, h4, h5, h6]
    simp [h1, h2, h3, h4, h5, h6, h7, not_le.mpr hq, not_le.mpr hp, hover]
  · intro hunder hsave
    simp only [create_listing, missing_required_field, h1, h2, h3, h4, h5, h6]
    simp [h1, h2, h3, h4, h5, h6, h7, not_le.mpr hq, not_le.mpr hp, not_lt.mpr hunder,
      create_attempt_loop, hsave]

/-- **C6.** `delete_listing` ownership: when the located active listing's
`seller_id` equals the caller's and the conditional write succeeds, the
call returns 200 and the single write request replaces the listing by its
removed version (`status = "removed"` with `removed_at = now`, all other
fields unchanged); when the `seller_id` differs, the call fails with 403
("You can only remove your own listings") and issues no write for any
store behaviour, so the listing remains as stored. -/
theorem delete_listing_ownership
    (lenv : ListEnv) (lid : String) (sd : SellerData) (sid now : String)
    (i : Nat) (t : Listing)
    (hlid : lid ≠ "")
    (hsid : sd.seller_id = some sid)
    (hfind : findActive (lenv.read 0) lid = some (i, t)) :
    (t.seller_id = sid → lenv.save 0 = .ok →
      delete_listing lenv (some lid) sd now
        = (create_response 200
            (.deleteSuccess lid "Listing removed successfully"
              t.item_name t.quantity t.asking_price),
           [((lenv.read 0).set i (removedListing t now), lenv.readTok 0)]) ∧
      (removedListing t now).status = "removed" ∧
      (removedListing t now).removed_at = some now ∧
      (removedListing t now).seller_id = t.seller_id ∧
      (removedListing t now).quantity = t.quantity ∧
      (removedListing t now).asking_price = t.asking_price) ∧
    (t.seller_id ≠ sid →
      delete_listing lenv (some lid) sd now
        = (create_response 403 (.err "You can only remove your own listings"), [])) := by
  constructor
  · intro hown hsave
    refine ⟨?_, rfl, rfl, rfl, rfl, rfl⟩
    simp only [delete_listing, hlid, hsid, if_neg hlid]
    simp [delete_attempt_loop, hfind, hown, hsave, removedListing]
  · intro hother
    simp only [delete_listing, hlid, hsid, if_neg hlid]
    simp [delete_attempt_loop, hfind, hother]

/-- **C7.** Once `buy_listing`'s conditional write of the sold listing has
succeeded (the retry loop committed), the trade-record append cannot
change the reported outcome: for every behaviour of the trades document
(including every failing one) the call returns 200 with the trade's
details built from the sold listing, and the listings write log is exactly
the loop's — only the trade-document writes vary. -/
theorem buy_listing_trade_append_failure_harmless
    (lenv : ListEnv) (lid : String) (bd : BuyerData)
    (bid bname trade_id now : String) (i : Nat) (target : Listing)
    (nl : List Listing) (log : List WriteReq)
    (hlid : lid ≠ "")
    (hbid : bd.buyer_id = some bid) (hbname : bd.buyer_name = some bname)
    (hcommit : buy_attempt_loop lenv lid bid bname bd.expected_price now 3 0
      = .committed i target nl log) :
    ∀ tenv : TradeEnv,
      buy_listing lenv tenv (some lid) bd trade_id now
        = (create_response 200
            (.buySuccess (mkTrade trade_id lid target bid bname now)
              target.item_type target.item_name target.quantity target.asking_price),
           log,
           trade_append_loop tenv (mkTrade trade_id lid target bid bname now) 3 0) := by
  intro tenv
  simp [buy_listing, hlid, hbid, hbname, hcommit]

/-- The write requests carried by a loop result. -/
def buyLog : BuyLoopRes → List WriteReq
  | .early _ log => log
  | .committed _ _ _ log => log
  | .raised log => log

theorem buyLog_pushW (w : WriteReq) (r : BuyLoopRes) :
    buyLog (pushW w r) = w :: buyLog r := by
  cases r <;> rfl

/-- Every write request `buy_listing`'s retry loop issues is recomputed
from scratch: the k-th write (counting from the loop entry at iteration
`attempt`) is exactly the document read at iteration `attempt + k` with
the listing found there replaced by its sold version, together with that
same read's ETag. -/
theorem buy_attempt_loop_log_spec (lenv : ListEnv) (lid bid bname : String)
    (ep : Option Int) (now : String) :
    ∀ (fuel attempt k : Nat) (w : WriteReq),
      (buyLog (buy_attempt_loop lenv lid bid bname ep now fuel attempt)).get? k = some w →
      ∃ i t, findActive (lenv.read (attempt + k)) lid = some (i, t) ∧
        w = ((lenv.read (attempt + k)).set i (soldListing t bid bname now),
             lenv.readTok (attempt + k)) := by
  intro fuel
  induction fuel with
  | zero =>
    intro attempt k w h
    simp [buy_attempt_loop, buyLog] at h
  | succ f ih =>
    intro attempt k w h
    simp only [buy_attempt_loop] at h
    split at h
    · simp [buyLog] at h
    · rename_i i t hfa
      split at h
      · simp [buyLog] at h
      · rename_i hs
        split at h
        · rename_i p hep
          split at h
          · simp [buyLog] at h
          · split at h
            · cases k with
              | zero =>
                have hw : w
                    = ((lenv.read attempt).set i (soldListing t bid bname now),
                       lenv.readTok attempt) := by
                  simpa [buyLog] using h.symm
                exact ⟨i, t, by simpa using hfa, by simpa using hw⟩
              | succ k' => simp [buyLog] at h
            · split at h
              · cases k with
                | zero =>
                  have hw : w
                      = ((lenv.read attempt).set i (soldListing t bid bname now),
                         lenv.readTok attempt) := by
                    simpa [buyLog] using h.symm
                  exact ⟨i, t, by simpa using hfa, by simpa using hw⟩
                | succ k' => simp [buyLog] at h
              · rw [buyLog_pushW] at h
                cases k with
                | zero =>
                  have hw : w
                      = ((lenv.read attempt).set i (soldListing t bid bname now),
                         lenv.readTok attempt) := by
                    simpa using h.symm
                  exact ⟨i, t, by simpa using hfa, by simpa using hw⟩
                | succ k' =>
                  rw [List.get?_cons_succ] at h
                  obtain ⟨i', t', hf', hw'⟩ := ih (attempt + 1) k' w h
                  have ha : attempt + (k' + 1) = attempt + 1 + k' := by omega
                  exact ⟨i', t', by rw [ha]; exact hf', by rw [ha]; exact hw'⟩
            · cases k with
              | zero =>
                have hw : w
                    = ((lenv.read attempt).set i (soldListing t bid bname now),
                       lenv.readTok attempt) := by
                  simpa [buyLog] using h.symm
                exact ⟨i, t, by simpa using hfa, by simpa using hw⟩
              | succ k' => simp [buyLog] at h
        · split at h
          · cases k with
            | zero =>
              have hw : w
                  = ((lenv.read attempt).set i (soldListing t bid bname now),
                     lenv.readTok attempt) := by
                simpa [buyLog] using h.symm
              exact ⟨i, t, by simpa using hfa, by simpa using hw⟩
            | succ k' => simp [buyLog] at h
          · split at h
            · cases k with
              | zero =>
                have hw : w
                    = ((lenv.read attempt).set i (soldListing t bid bname now),
                       lenv.readTok attempt) := by
                  simpa [buyLog] using h.symm
                exact ⟨i, t, by simpa using hfa, by simpa using hw⟩
              | succ k' => simp [buyLog] at h
            · rw [buyLog_pushW] at h
              cases k with
              | zero =>
                have hw : w
                    = ((lenv.read attempt).set i (soldListing t bid bname now),
                       lenv.readTok attempt) := by
                  simpa using h.symm
                exact ⟨i, t, by simpa using hfa, by simpa using hw⟩
              | succ k' =>
                rw [List.get?_cons_succ] at h
                obtain ⟨i', t', hf', hw'⟩ := ih (attempt + 1) k' w h
                have ha : attempt + (k' + 1) = attempt + 1 + k' := by omega
                exact ⟨i', t', by rw [ha]; exact hf', by rw [ha]; exact hw'⟩
          · cases k with
            | zero =>
              have hw : w
                  = ((lenv.read attempt).set i (soldListing t bid bname now),
                     lenv.readTok attempt) := by
                simpa [buyLog] using h.symm
              exact ⟨i, t, by simpa using hfa, by simpa using hw⟩
            | succ k' => simp [buyLog] at h

/-- **C9.** Every listings write issued by `buy_listing` (in particular the
successful one) is a frame-preserving sold-mutation of the snapshot it
read: the k-th write request carries that read's ETag and its document is
the k-th read with only the located listing replaced — same length, every
other index untouched — and the replacement differs from the located
listing only in `status = "sold"` and the added `buyer_id`, `buyer_name`,
`sold_at`; `quantity`, `asking_price` and all other fields are unchanged. -/
theorem buy_listing_write_frame
    (lenv : ListEnv) (tenv : TradeEnv) (lid : String) (bd : BuyerData)
    (bid bname trade_id now : String) (k : Nat) (w : WriteReq)
    (hlid : lid ≠ "")
    (hbid : bd.buyer_id = some bid) (hbname : bd.buyer_name = some bname)
    (hk : ((buy_listing lenv tenv (some lid) bd trade_id now).2.1).get? k = some w) :
    ∃ i t, findActive (lenv.read k) lid = some (i, t) ∧
      w.2 = lenv.readTok k ∧
      w.1 = (lenv.read k).set i (soldListing t bid bname now) ∧
      w.1.length = (lenv.read k).length ∧
      (∀ j, j ≠ i → w.1.get? j = (lenv.read k).get? j) ∧
      w.1.get? i = some (soldListing t bid bname now) ∧
      (soldListing t bid bname now).status = "sold" ∧
      (soldListing t bid bname now).buyer_id = some bid ∧
      (soldListing t bid bname now).buyer_name = some bname ∧
      (soldListing t bid bname now).sold_at = some now ∧
      (soldListing t bid bname now).listing_id = t.listing_id ∧
      (soldListing t bid bname now).seller_id = t.seller_id ∧
      (soldListing t bid bname now).seller_name = t.seller_name ∧
      (soldListing t bid bname now).item_type = t.item_type ∧
      (soldListing t bid bname now).item_name = t.item_name ∧
      (soldListing t bid bname now).quantity = t.quantity ∧
      (soldListing t bid bname now).asking_price = t.asking_price ∧
      (soldListing t bid bname now).description = t.description ∧
      (soldListing t bid bname now).created_at = t.created_at := by
  have hlog : (buy_listing lenv tenv (some lid) bd trade_id now).2.1
      = buyLog (buy_attempt_loop lenv lid bid bname bd.expected_price now 3 0) := by
    simp only [buy_listing, hlid, hbid, hbname, if_neg hlid]
    cases hres : buy_attempt_loop lenv lid bid bname bd.expected_price now 3 0 <;>
      simp [buyLog]
  rw [hlog] at hk
  obtain ⟨i, t, hf, hw⟩ :=
    buy_attempt_loop_log_spec lenv lid bid bname bd.expected_price now 3 0 k w hk
  simp only [Nat.zero_add] at hf hw
  have hget : (lenv.read k).get? i = some t := (findActive_some hf).1
  have hlt : i < (lenv.read k).length := by
    rcases List.get?_eq_some.mp hget with ⟨h, -⟩
    exact h
  subst hw
  refine ⟨i, t, hf, rfl, rfl, List.length_set .., ?_, ?_,
    rfl, rfl, rfl, rfl, rfl, rfl, rfl, rfl, rfl, rfl, rfl, rfl, rfl⟩
  · intro j hji
    exact List.get?_set_ne _ _ (fun h => hji h.symm)
  · exact List.get?_set_eq_of_lt _ hlt

/-- The write requests carried by a `create_listing` loop result. -/
def createLog : CreateLoopRes → List WriteReq
  | .okC log => log
  | .raisedC log => log

/-- Every write request `create_listing`'s retry loop issues is recomputed
from scratch: the k-th write appends the new listing to the document of
the loop's own (k+1)-st read of the call (read 0 being the validation
read) and carries that read's ETag. -/
theorem create_attempt_loop_log_spec (lenv : ListEnv) (listing : Listing) :
    ∀ (fuel attempt k : Nat) (w : WriteReq),
      (createLog (create_attempt_loop lenv listing fuel attempt)).get? k = some w →
      w = (lenv.read (attempt + k + 1) ++ [listing], lenv.readTok (attempt + k + 1)) := by
  intro fuel
  induction fuel with
  | zero =>
    intro attempt k w h
    simp [create_attempt_loop, createLog] at h
  | succ f ih =>
    intro attempt k w h
    simp only [create_attempt_loop] at h
    split at h
    · cases k with
      | zero => simpa [createLog] using h.symm
      | succ k' => simp [createLog] at h
    · split at h
      · cases k with
        | zero => simpa [createLog] using h.symm
        | succ k' => simp [createLog] at h
      · split at h
        · rename_i log heq
          simp only [createLog] at h
          cases k with
          | zero => simpa using h.symm
          | succ k' =>
            rw [List.get?_cons_succ] at h
            have := ih (attempt + 1) k' w (by rw [heq, createLog]; exact h)
            have ha : attempt + (k' + 1) + 1 = attempt + 1 + k' + 1 := by omega
            rw [ha]
            exact this
        · rename_i log heq
          simp only [createLog] at h
          cases k with
          | zero => simpa using h.symm
          | succ k' =>
            rw [List.get?_cons_succ] at h
            have := ih (attempt + 1) k' w (by rw [heq, createLog]; exact h)
            have ha : attempt + (k' + 1) + 1 = attempt + 1 + k' + 1 := by omega
            rw [ha]
            exact this
    · cases k with
      | zero => simpa [createLog] using h.symm
      | succ k' => simp [createLog] at h

/-- The write requests carried by a `delete_listing` loop result. -/
def deleteLog : DeleteLoopRes → List WriteReq
  | .earlyD _ log => log
  | .okD _ log => log
  | .raisedD log => log

/-- Every write request `delete_listing`'s retry loop issues is recomputed
from scratch: the k-th write replaces, in the document of the loop's own
(k+1)-st read, the listing found there (whose seller matched) by its
removed version, and carries that read's ETag. -/
theorem delete_attempt_loop_log_spec (lenv : ListEnv) (lid sid now : String) :
    ∀ (fuel attempt k : Nat) (w : WriteReq),
      (deleteLog (delete_attempt_loop lenv lid sid now fuel attempt)).get? k = some w →
      ∃ i t, findActive (lenv.read (attempt + k)) lid = some (i, t) ∧
        t.seller_id = sid ∧
        w = ((lenv.read (attempt + k)).set i (removedListing t now),
             lenv.readTok (attempt + k)) := by
  intro fuel
  induction fuel with
  | zero =>
    intro attempt k w h
    simp [delete_attempt_loop, deleteLog] at h
  | succ f ih =>
    intro attempt k w h
    simp only [delete_attempt_loop] at h
    split at h
    · simp [deleteLog] at h
    · rename_i i t hfa
      split at h
      · simp [deleteLog] at h
      · rename_i hs
        rw [not_not] at hs
        split at h
        · cases k with
          | zero =>
            have hw : w = ((lenv.read attempt).set i (removedListing t now),
                lenv.readTok attempt) := by
              simpa [deleteLog] using h.symm
            exact ⟨i, t, by simpa using hfa, hs, by simpa using hw⟩
          | succ k' => simp [deleteLog] at h
        · split at h
          · cases k with
            | zero =>
              have hw : w = ((lenv.read attempt).set i (removedListing t now),
                  lenv.readTok attempt) := by
                simpa [deleteLog] using h.symm
              exact ⟨i, t, by simpa using hfa, hs, by simpa using hw⟩
            | succ k' => simp [deleteLog] at h
          · split at h
            · rename_i r' log heq
              simp only [deleteLog] at h
              cases k with
              | zero =>
                have hw : w = ((lenv.read attempt).set i (removedListing t now),
                    lenv.readTok attempt) := by
                  simpa using h.symm
                exact ⟨i, t, by simpa using hfa, hs, by simpa using hw⟩
              | succ k' =>
                rw [List.get?_cons_succ] at h
                obtain ⟨i', t', hf', hs', hw'⟩ :=
                  ih (attempt + 1) k' w (by rw [heq]; simpa [deleteLog] using h)
                have ha : attempt + (k' + 1) = attempt + 1 + k' := by omega
                exact ⟨i', t', by rw [ha]; exact hf', hs', by rw [ha]; exact hw'⟩
            · rename_i t'' log heq
              simp only [deleteLog] at h
              cases k with
              | zero =>
                have hw : w = ((lenv.read attempt).set i (removedListing t now),
                    lenv.readTok attempt) := by
                  simpa using h.symm
                exact ⟨i, t, by simpa using hfa, hs, by simpa using hw⟩
              | succ k' =>
                rw [List.get?_cons_succ] at h
                obtain ⟨i', t', hf', hs', hw'⟩ :=
                  ih (attempt + 1) k' w (by rw [heq]; simpa [deleteLog] using h)
                have ha : attempt + (k' + 1) = attempt + 1 + k' := by omega
                exact ⟨i', t', by rw [ha]; exact hf', hs', by rw [ha]; exact hw'⟩
            · rename_i log heq
              simp only [deleteLog] at h
              cases k with
              | zero =>
                have hw : w = ((lenv.read attempt).set i (removedListing t now),
                    lenv.readTok attempt) := by
                  simpa using h.symm
                exact ⟨i, t, by simpa using hfa, hs, by simpa using hw⟩
              | succ k' =>
                rw [List.get?_cons_succ] at h
                obtain ⟨i', t', hf', hs', hw'⟩ :=
                  ih (attempt + 1) k' w (by rw [heq]; simpa [deleteLog] using h)
                have ha : attempt + (k' + 1) = attempt + 1 + k' := by omega
                exact ⟨i', t', by rw [ha]; exact hf', hs', by rw [ha]; exact hw'⟩
        · cases k with
          | zero =>
            have hw : w = ((lenv.read attempt).set i (removedListing t now),
                lenv.readTok attempt) := by
              simpa [deleteLog] using h.symm
            exact ⟨i, t, by simpa using hfa, hs, by simpa using hw⟩
          | succ k' => simp [deleteLog] at h

/-- **C2 (amended).** On every `VersionConflict` all three writing
operations re-read and recompute from scratch — every write request any of
them issues is derived from its own attempt's fresh read, never a reused
stale mutation (the last three conjuncts).  But exhaustion of the three
CAS attempts is surfaced as the distinct conflict response
(409, "Item was purchased by another player") only by `buy_listing`;
`create_listing` and `delete_listing` re-raise the final
`PreconditionFailed` and surface exhaustion as their generic 500 failure
response, indistinguishable from any other unexpected error. -/
theorem cas_retry_exhaustion_and_recompute :
    (∀ (lenv : ListEnv) (tenv : TradeEnv) (lid : String) (bd : BuyerData)
       (bid bname trade_id now : String) (i : Nat) (t : Listing),
      lid ≠ "" → bd.buyer_id = some bid → bd.buyer_name = some bname →
      bd.expected_price = none →
      (∀ k, findActive (lenv.read k) lid = some (i, t)) → t.seller_id ≠ bid →
      (∀ k, lenv.save k = .precondFailed) →
      (buy_listing lenv tenv (some lid) bd trade_id now).1
        = create_response 409 (.err "Item was purchased by another player")) ∧
    (∀ (lenv : ListEnv) (cd : CreateData) (lid now sid sname itype iname ds : String)
       (q p : Int),
      cd.seller_id = some sid → cd.seller_name = some sname → cd.item_type = some itype →
      cd.item_name = some iname → cd.quantity = some q → cd.asking_price = some p →
      cd.description = some ds → 0 < q → 0 < p →
      existing_quantity_for (lenv.read 0) sid itype + q ≤ MAX_LISTED_QUANTITY_PER_ITEM →
      (∀ k, lenv.save k = .precondFailed) →
      (create_listing lenv cd lid now).1
        = create_response 500 (.err "Failed to create listing")) ∧
    (∀ (lenv : ListEnv) (lid : String) (sd : SellerData) (sid now : String)
       (i : Nat) (t : Listing),
      lid ≠ "" → sd.seller_id = some sid →
      (∀ k, findActive (lenv.read k) lid = some (i, t)) → t.seller_id = sid →
      (∀ k, lenv.save k = .precondFailed) →
      (delete_listing lenv (some lid) sd now).1
        = create_response 500 (.err "Failed to remove listing")) ∧
    (∀ (lenv : ListEnv) (lid bid bname : String) (ep : Option Int) (now : String)
       (fuel attempt k : Nat) (w : WriteReq),
      (buyLog (buy_attempt_loop lenv lid bid bname ep now fuel attempt)).get? k = some w →
      ∃ i t, findActive (lenv.read (attempt + k)) lid = some (i, t) ∧
        w = ((lenv.read (attempt + k)).set i (soldListing t bid bname now),
             lenv.readTok (attempt + k))) ∧
    (∀ (lenv : ListEnv) (listing : Listing) (fuel attempt k : Nat) (w : WriteReq),
      (createLog (create_attempt_loop lenv listing fuel attempt)).get? k = some w →
      w = (lenv.read (attempt + k + 1) ++ [listing], lenv.readTok (attempt + k + 1))) ∧
    (∀ (lenv : ListEnv) (lid sid now : String) (fuel attempt k : Nat) (w : WriteReq),
      (deleteLog (delete_attempt_loop lenv lid sid now fuel attempt)).get? k = some w →
      ∃ i t, findActive (lenv.read (attempt + k)) lid = some (i, t) ∧
        t.seller_id = sid ∧
        w = ((lenv.read (attempt + k)).set i (removedListing t now),
             lenv.readTok (attempt + k))) := by
  refine ⟨?_, ?_, ?_, ?_, ?_, ?_⟩
  · intro lenv tenv lid bd bid bname trade_id now i t hlid hbid hbname hep hfind hself hsv
    simp only [buy_listing, hlid, hbid, hbname, if_neg hlid, hep]
    simp [buy_attempt_loop, pushW, hfind 0, hfind 1, hfind 2, hself,
      hsv 0, hsv 1, hsv 2]
  · intro lenv cd lid now sid sname itype iname ds q p h1 h2 h3 h4 h5 h6 h7 hq hp hcap hsv
    simp only [create_listing, missing_required_field, h1, h2, h3, h4, h5, h6]
    simp [h1, h2, h3, h4, h5, h6, h7, not_le.mpr hq, not_le.mpr hp, not_lt.mpr hcap,
      create_attempt_loop, hsv 0, hsv 1, hsv 2]
  · intro lenv lid sd sid now i t hlid hsid hfind hown hsv
    simp only [delete_listing, hlid, hsid, if_neg hlid]
    simp [delete_attempt_loop, hfind 0, hfind 1, hfind 2, hown,
      hsv 0, hsv 1, hsv 2]
  · intro lenv lid bid bname ep now fuel attempt k w h
    exact buy_attempt_loop_log_spec lenv lid bid bname ep now fuel attempt k w h
  · intro lenv listing fuel attempt k w h
    exact create_attempt_loop_log_spec lenv listing fuel attempt k w h
  · intro lenv lid sid now fuel attempt k w h
    exact delete_attempt_loop_log_spec lenv lid sid now fuel attempt k w h

/-! ### Concrete data for the sequential witnesses and counterexamples -/

/-- A concrete active listing by seller `s1`. -/
def sampleListing : Listing :=
  ⟨"L1", "s1", "SellerOne", "ore", "Iron Ore", 5, 100, "", "active", "T0",
   none, none, none, none⟩

/-- A healthy store holding just `sampleListing`: constant reads, an ETag,
all conditional writes succeed. -/
def happyEnv : ListEnv := ⟨fun _ => [sampleListing], fun _ => some "e0", fun _ => .ok⟩

/-- A healthy empty trades store. -/
def happyTradeEnv : TradeEnv := ⟨fun _ => [], fun _ => none, fun _ => .ok⟩

/-- A store on which every conditional write fails with
`PreconditionFailed` (permanent CAS interference). -/
def conflictEnv : ListEnv :=
  ⟨fun _ => [sampleListing], fun _ => some "e0", fun _ => .precondFailed⟩

/-- A complete, valid request body for `create_listing`. -/
def fullCreateData : CreateData :=
  ⟨some "s2", some "SellerTwo", some "ore", some "Iron Ore", some 5, some 100, some ""⟩

/-- **C2 counterexample.** The claim predicts a distinct `ConflictError`
for every writing operation on retry exhaustion; but `create_listing`
under permanent CAS conflicts returns its generic 500 failure body
"Failed to create listing" — the same response it gives for any
unexpected exception — not a 409 conflict. -/
theorem create_listing_exhaustion_counterexample :
    (create_listing conflictEnv fullCreateData "L2" "T1").1
      = create_response 500 (.err "Failed to create listing") ∧
    (create_listing conflictEnv fullCreateData "L2" "T1").1.statusCode = 500 ∧
    ¬ (create_listing conflictEnv fullCreateData "L2" "T1").1.statusCode = 409 := by
  refine ⟨by decide, by decide, by decide⟩

/-- Witness for C2 (amended) at concrete permanently-conflicting stores:
buy surfaces 409, create and delete surface generic 500. -/
theorem cas_retry_exhaustion_and_recompute_witness :
    (buy_listing conflictEnv happyTradeEnv (some "L1")
        ⟨some "b1", some "BuyerOne", none⟩ "tr1" "T1").1
      = create_response 409 (.err "Item was purchased by another player") ∧
    (create_listing conflictEnv fullCreateData "L2" "T1").1
      = create_response 500 (.err "Failed to create listing") ∧
    (delete_listing conflictEnv (some "L1") ⟨some "s1"⟩ "T1").1
      = create_response 500 (.err "Failed to remove listing") := by
  obtain ⟨hb, hc, hd, -, -, -⟩ := cas_retry_exhaustion_and_recompute
  refine ⟨?_, ?_, ?_⟩
  · exact hb conflictEnv happyTradeEnv "L1" ⟨some "b1", some "BuyerOne", none⟩
      "b1" "BuyerOne" "tr1" "T1" 0 sampleListing (by decide) rfl rfl rfl
      (fun k => rfl) (by decide) (fun k => rfl)
  · exact hc conflictEnv fullCreateData "L2" "T1" "s2" "SellerTwo" "ore" "Iron Ore" ""
      5 100 rfl rfl rfl rfl rfl rfl rfl (by decide) (by decide) (by decide) (fun k => rfl)
  · exact hd conflictEnv "L1" ⟨some "s1"⟩ "s1" "T1" 0 sampleListing (by decide) rfl
      (fun k => rfl) rfl (fun k => rfl)

/-- A store whose reads yield the empty document with an absent token —
exactly what `load_from_s3` returns when the underlying read errors. -/
def erroringReadEnv : ListEnv := ⟨fun _ => [], fun _ => none, fun _ => .ok⟩

/-- **C8 counterexample.** The claim predicts a generic
`StoreUnavailableError` when the store is reachable but erroring; but a
failing read is swallowed by `load_from_s3` (`return [], None` in its
catch-all handler), so `buy_listing` sees an empty document and reports
the business rejection `NotFoundError` (404), not a generic 500 failure. -/
theorem store_read_error_counterexample :
    load_from_s3 .otherError = ([], none) ∧
    buy_listing erroringReadEnv happyTradeEnv (some "L1")
        ⟨some "b1", some "BuyerOne", none⟩ "tr1" "T1"
      = (create_response 404 (.err "Listing not found or already sold"), [], []) ∧
    ¬ (buy_listing erroringReadEnv happyTradeEnv (some "L1")
        ⟨some "b1", some "BuyerOne", none⟩ "tr1" "T1").1.statusCode = 500 := by
  refine ⟨rfl, by decide, by decide⟩

/-- **C8 (amended).** Only write errors surface as the operation's generic
500 failure; read errors do not: `load_from_s3` swallows every read error
(as it does `NoSuchKey`) into the empty document with an absent token, so
a `buy_listing` whose read errored reports the business rejection 404
"Listing not found or already sold". -/
theorem store_error_surfacing :
    load_from_s3 .noSuchKey = ([], none) ∧
    load_from_s3 .otherError = ([], none) ∧
    (∀ (lenv : ListEnv) (tenv : TradeEnv) (lid : String) (bd : BuyerData)
       (bid bname trade_id now : String),
      lid ≠ "" → bd.buyer_id = some bid → bd.buyer_name = some bname →
      lenv.read 0 = [] →
      (buy_listing lenv tenv (some lid) bd trade_id now).1
        = create_response 404 (.err "Listing not found or already sold")) ∧
    (∀ (lenv : ListEnv) (tenv : TradeEnv) (lid : String) (bd : BuyerData)
       (bid bname trade_id now : String) (i : Nat) (t : Listing),
      lid ≠ "" → bd.buyer_id = some bid → bd.buyer_name = some bname →
      bd.expected_price = none →
      findActive (lenv.read 0) lid = some (i, t) → t.seller_id ≠ bid →
      lenv.save 0 = .otherError →
      (buy_listing lenv tenv (some lid) bd trade_id now).1
        = create_response 500 (.err "Failed to complete purchase")) := by
  refine ⟨rfl, rfl, ?_, ?_⟩
  · intro lenv tenv lid bd bid bname trade_id now hlid hbid hbname hread
    have hfind : findActive (lenv.read 0) lid = none := by
      rw [hread]
      rfl
    simp only [buy_listing, hlid, hbid, hbname, if_neg hlid]
    simp [buy_attempt_loop, hfind]
  · intro lenv tenv lid bd bid bname trade_id now i t hlid hbid hbname hep hfind hself hsv
    simp only [buy_listing, hlid, hbid, hbname, if_neg hlid, hep]
    simp [buy_attempt_loop, hfind, hself, hsv]

/-- A store whose first conditional write fails with a non-precondition
error. -/
def brokenWriteEnv : ListEnv :=
  ⟨fun _ => [sampleListing], fun _ => some "e0", fun _ => .otherError⟩

/-- Witness for C8 (amended): concrete erroring-read and erroring-write
stores. -/
theorem store_error_surfacing_witness :
    load_from_s3 .otherError = ([], none) ∧
    (buy_listing erroringReadEnv happyTradeEnv (some "L1")
        ⟨some "b1", some "BuyerOne", none⟩ "tr1" "T1").1
      = create_response 404 (.err "Listing not found or already sold") ∧
    (buy_listing brokenWriteEnv happyTradeEnv (some "L1")
        ⟨some "b1", some "BuyerOne", none⟩ "tr1" "T1").1
      = create_response 500 (.err "Failed to complete purchase") := by
  obtain ⟨-, he, h404, h500⟩ := store_error_surfacing
  refine ⟨he, ?_, ?_⟩
  · exact h404 erroringReadEnv happyTradeEnv "L1" ⟨some "b1", some "BuyerOne", none⟩
      "b1" "BuyerOne" "tr1" "T1" (by decide) rfl rfl rfl
  · exact h500 brokenWriteEnv happyTradeEnv "L1" ⟨some "b1", some "BuyerOne", none⟩
      "b1" "BuyerOne" "tr1" "T1" 0 sampleListing (by decide) rfl rfl rfl rfl
      (by decide) rfl

/-- Whatever the save outcomes, the first write request of
`create_listing`'s retry loop appends the listing to the loop's first
fresh read (the call's second read overall) and carries that read's
ETag. -/
theorem create_attempt_loop_first_write (lenv : ListEnv) (listing : Listing)
    (f attempt : Nat) :
    (createLog (create_attempt_loop lenv listing (f + 1) attempt)).get? 0
      = some (lenv.read (attempt + 1) ++ [listing], lenv.readTok (attempt + 1)) := by
  simp only [create_attempt_loop]
  split
  · rfl
  · split
    · rfl
    · split <;> rfl
  · rfl

/-- **C10.** The store write helper attaches the `IfMatch` precondition
only when an expected token was supplied (a supplied-but-empty token also
yields an unconditional put, by Python truthiness); the read helper
returns an absent token both for a never-written key and for any other
read failure; consequently a `create_listing` attempt whose loop read
yielded an absent token issues its first listings write unconditionally —
last-writer-wins, with no conflict protection for that attempt. -/
theorem absent_token_write_unconditional :
    (∀ (d : List Listing) (e : Option String),
      (save_to_s3_with_etag d e).hasIfMatch = true → e ≠ none) ∧
    (∀ d : List Listing, (save_to_s3_with_etag d none).hasIfMatch = false) ∧
    load_from_s3 .noSuchKey = ([], none) ∧
    load_from_s3 .otherError = ([], none) ∧
    (∀ (lenv : ListEnv) (cd : CreateData) (lid now sid sname itype iname ds : String)
       (q p : Int),
      cd.seller_id = some sid → cd.seller_name = some sname → cd.item_type = some itype →
      cd.item_name = some iname → cd.quantity = some q → cd.asking_price = some p →
      cd.description = some ds → 0 < q → 0 < p →
      existing_quantity_for (lenv.read 0) sid itype + q ≤ MAX_LISTED_QUANTITY_PER_ITEM →
      lenv.readTok 1 = none →
      (create_listing lenv cd lid now).2.get? 0
        = some (lenv.read 1 ++
            [⟨lid, sid, sname, itype, iname, q, p, ds, "active", now,
              none, none, none, none⟩], none) ∧
      (save_to_s3_with_etag
        (lenv.read 1 ++
          [⟨lid, sid, sname, itype, iname, q, p, ds, "active", now,
            none, none, none, none⟩]) none).hasIfMatch = false) := by
  refine ⟨?_, ?_, rfl, rfl, ?_⟩
  · intro d e h hnone
    subst hnone
    simp [save_to_s3_with_etag, etag_truthy] at h
  · intro d
    rfl
  · intro lenv cd lid now sid sname itype iname ds q p h1 h2 h3 h4 h5 h6 h7 hq hp hcap htok
    refine ⟨?_, rfl⟩
    have hlog : (create_listing lenv cd lid now).2
        = createLog (create_attempt_loop lenv
            ⟨lid, sid, sname, itype, iname, q, p, ds, "active", now,
             none, none, none, none⟩ 3 0) := by
      simp only [create_listing, missing_required_field, h1, h2, h3, h4, h5, h6]
      simp only [h1, h2, h3, h4, h5, h6, h7, Option.getD_some]
      rw [if_neg (not_le.mpr hq), if_neg (not_le.mpr hp), if_neg (not_lt.mpr hcap)]
      cases hres : create_attempt_loop lenv
          ⟨lid, sid, sname, itype, iname, q, p, ds, "active", now,
           none, none, none, none⟩ 3 0 <;>
        simp [createLog, hres]
    rw [hlog]
    have hfw := create_attempt_loop_first_write lenv
      ⟨lid, sid, sname, itype, iname, q, p, ds, "active", now,
       none, none, none, none⟩ 2 0
    rw [show (0 : Nat) + 1 = 1 from rfl, htok] at hfw
    exact hfw

/-- Witness for C3: the seller of `sampleListing` tries to buy it and gets
the immediate self-trade rejection with no writes. -/
theorem buy_listing_self_trade_witness :
    buy_listing happyEnv happyTradeEnv (some "L1")
        ⟨some "s1", some "SellerOne", none⟩ "tr1" "T1"
      = (create_response 400 (.err "Cannot buy your own listing"), [], []) :=
  buy_listing_self_trade happyEnv happyTradeEnv "L1"
    ⟨some "s1", some "SellerOne", none⟩ "s1" "SellerOne" "tr1" "T1" 0 sampleListing
    (by decide) rfl rfl (by decide) rfl

/-- Witness for C4: buying the 100-credit `sampleListing` with
`expected_price = 150` yields the immediate price-changed rejection
carrying both prices, with no writes. -/
theorem buy_listing_price_changed_witness :
    buy_listing happyEnv happyTradeEnv (some "L1")
        ⟨some "b1", some "BuyerOne", some 150⟩ "tr1" "T1"
      = (create_response 409 (.priceChanged "Price changed" 100 150), [], []) :=
  buy_listing_price_changed happyEnv happyTradeEnv "L1"
    ⟨some "b1", some "BuyerOne", some 150⟩ "b1" "BuyerOne" "tr1" "T1" 150 0 sampleListing
    (by decide) rfl rfl rfl (by decide) (by decide) (by decide)

/-- A seller with 45 active units of ore already listed. -/
def capListing : Listing :=
  ⟨"L9", "s1", "SellerOne", "ore", "Iron Ore", 45, 10, "", "active", "T0",
   none, none, none, none⟩

/-- Store holding just `capListing`. -/
def capEnv : ListEnv := ⟨fun _ => [capListing], fun _ => some "e0", fun _ => .ok⟩

/-- Request to list 10 more units of ore (would reach 55). -/
def capData10 : CreateData :=
  ⟨some "s1", some "SellerOne", some "ore", some "Iron Ore", some 10, some 20, some ""⟩

/-- Request to list 5 more units of ore (reaches exactly 50). -/
def capData5 : CreateData :=
  ⟨some "s1", some "SellerOne", some "ore", some "Iron Ore", some 5, some 20, some ""⟩

/-- Witness for C5: with 45 units listed, listing 10 more fails with the
capacity error naming 45/10/50, and listing 5 more succeeds. -/
theorem create_listing_capacity_witness :
    create_listing capEnv capData10 "L2" "T1"
      = (create_response 400
          (.capacity "Server validation failed: would exceed maximum per item type"
            45 10 50), []) ∧
    create_listing capEnv capData5 "L2" "T1"
      = (create_response 201 (.createSuccess
          ⟨"L2", "s1", "SellerOne", "ore", "Iron Ore", 5, 20, "", "active", "T1",
           none, none, none, none⟩),
         [([capListing,
            ⟨"L2", "s1", "SellerOne", "ore", "Iron Ore", 5, 20, "", "active", "T1",
             none, none, none, none⟩], some "e0")]) := by
  constructor
  · exact (create_listing_capacity capEnv capData10 "L2" "T1" "s1" "SellerOne" "ore"
      "Iron Ore" "" 10 20 rfl rfl rfl rfl rfl rfl rfl (by decide) (by decide)).1
      (by decide)
  · exact (create_listing_capacity capEnv capData5 "L2" "T1" "s1" "SellerOne" "ore"
      "Iron Ore" "" 5 20 rfl rfl rfl rfl rfl rfl rfl (by decide) (by decide)).2
      (by decide) rfl

/-- Witness for C6: the owner's cancellation succeeds and writes the
removed version; a different caller gets 403 and no write is issued. -/
theorem delete_listing_ownership_witness :
    (delete_listing happyEnv (some "L1") ⟨some "s1"⟩ "T1"
      = (create_response 200
          (.deleteSuccess "L1" "Listing removed successfully" "Iron Ore" 5 100),
         [([removedListing sampleListing "T1"], some "e0")]) ∧
      (removedListing sampleListing "T1").status = "removed" ∧
      (removedListing sampleListing "T1").removed_at = some "T1" ∧
      (removedListing sampleListing "T1").seller_id = sampleListing.seller_id ∧
      (removedListing sampleListing "T1").quantity = sampleListing.quantity ∧
      (removedListing sampleListing "T1").asking_price = sampleListing.asking_price) ∧
    delete_listing happyEnv (some "L1") ⟨some "s2"⟩ "T1"
      = (create_response 403 (.err "You can only remove your own listings"), []) := by
  constructor
  · exact (delete_listing_ownership happyEnv "L1" ⟨some "s1"⟩ "s1" "T1" 0 sampleListing
      (by decide) rfl (by decide)).1 rfl rfl
  · exact (delete_listing_ownership happyEnv "L1" ⟨some "s2"⟩ "s2" "T1" 0 sampleListing
      (by decide) rfl (by decide)).2 (by decide)

/-- A trades store on which every write fails with a non-precondition
error. -/
def failTradeEnv : TradeEnv := ⟨fun _ => [], fun _ => none, fun _ => .otherError⟩

/-- Witness for C7: against a trades store whose every write errors, the
committed buy still returns 200 with the trade's details and its listings
write log. -/
theorem buy_listing_trade_append_failure_witness :
    buy_listing happyEnv failTradeEnv (some "L1")
        ⟨some "b1", some "BuyerOne", none⟩ "tr1" "T1"
      = (create_response 200
          (.buySuccess (mkTrade "tr1" "L1" sampleListing "b1" "BuyerOne" "T1")
            "ore" "Iron Ore" 5 100),
         [([soldListing sampleListing "b1" "BuyerOne" "T1"], some "e0")],
         [([mkTrade "tr1" "L1" sampleListing "b1" "BuyerOne" "T1"], none)]) :=
  buy_listing_trade_append_failure_harmless happyEnv "L1"
    ⟨some "b1", some "BuyerOne", none⟩ "b1" "BuyerOne" "tr1" "T1" 0 sampleListing
    [soldListing sampleListing "b1" "BuyerOne" "T1"]
    [([soldListing sampleListing "b1" "BuyerOne" "T1"], some "e0")]
    (by decide) rfl rfl (by decide) failTradeEnv

/-- Witness for C9: the single write of a successful concrete buy is the
frame-preserving sold-mutation of the read snapshot. -/
theorem buy_listing_write_frame_witness :
    ∃ i t, findActive (happyEnv.read 0) "L1" = some (i, t) ∧
      (([soldListing sampleListing "b1" "BuyerOne" "T1"], some "e0") : WriteReq).2
        = happyEnv.readTok 0 ∧
      (([soldListing sampleListing "b1" "BuyerOne" "T1"], some "e0") : WriteReq).1
        = (happyEnv.read 0).set i (soldListing t "b1" "BuyerOne" "T1") ∧
      (([soldListing sampleListing "b1" "BuyerOne" "T1"], some "e0") : WriteReq).1.length
        = (happyEnv.read 0).length ∧
      (∀ j, j ≠ i →
        (([soldListing sampleListing "b1" "BuyerOne" "T1"], some "e0") : WriteReq).1.get? j
          = (happyEnv.read 0).get? j) ∧
      (([soldListing sampleListing "b1" "BuyerOne" "T1"], some "e0") : WriteReq).1.get? i
        = some (soldListing t "b1" "BuyerOne" "T1") ∧
      (soldListing t "b1" "BuyerOne" "T1").status = "sold" ∧
      (soldListing t "b1" "BuyerOne" "T1").buyer_id = some "b1" ∧
      (soldListing t "b1" "BuyerOne" "T1").buyer_name = some "BuyerOne" ∧
      (soldListing t "b1" "BuyerOne" "T1").sold_at = some "T1" ∧
      (soldListing t "b1" "BuyerOne" "T1").listing_id = t.listing_id ∧
      (soldListing t "b1" "BuyerOne" "T1").seller_id = t.seller_id ∧
      (soldListing t "b1" "BuyerOne" "T1").seller_name = t.seller_name ∧
      (soldListing t "b1" "BuyerOne" "T1").item_type = t.item_type ∧
      (soldListing t "b1" "BuyerOne" "T1").item_name = t.item_name ∧
      (soldListing t "b1" "BuyerOne" "T1").quantity = t.quantity ∧
      (soldListing t "b1" "BuyerOne" "T1").asking_price = t.asking_price ∧
      (soldListing t "b1" "BuyerOne" "T1").description = t.description ∧
      (soldListing t "b1" "BuyerOne" "T1").created_at = t.created_at :=
  buy_listing_write_frame happyEnv happyTradeEnv "L1"
    ⟨some "b1", some "BuyerOne", none⟩ "b1" "BuyerOne" "tr1" "T1" 0
    ([soldListing sampleListing "b1" "BuyerOne" "T1"], some "e0")
    (by decide) rfl rfl (by decide)

/-- Witness for C10: against a store whose reads yield the absent token,
`create_listing`'s first write request carries no token, so the put it
triggers is unconditional. -/
theorem absent_token_write_unconditional_witness :
    (save_to_s3_with_etag [] none).hasIfMatch = false ∧
    load_from_s3 .otherError = ([], none) ∧
    (create_listing erroringReadEnv fullCreateData "L2" "T1").2.get? 0
      = some ([⟨"L2", "s2", "SellerTwo", "ore", "Iron Ore", 5, 100, "", "active", "T1",
          none, none, none, none⟩], none) := by
  obtain ⟨-, h2, -, h4, h5⟩ := absent_token_write_unconditional
  refine ⟨h2 [], h4, ?_⟩
  have h := (h5 erroringReadEnv fullCreateData "L2" "T1" "s2" "SellerTwo" "ore"
    "Iron Ore" "" 5 100 rfl rfl rfl rfl rfl rfl rfl (by decide) (by decide)
    (by decide) rfl).1
  simpa using h
